import Mathlib

/-!
Verification of the ADS-B collector (`adsb_collector_latest.py`).

The Python source is shallowly embedded: pure helpers become Lean
functions over `List Char` / `String`, the Oracle tables and module-level
caches become fields of an explicit `Sys` state record, and Python
exceptions become `Except PyErr`.  Timestamps are modelled as `Int`
minutes; floating point position values are kept as their raw field text
(no claim computes with them).
-/

namespace ADSB

/-! ### Python string primitives -/

/-- Characters removed by Python `str.strip()` (ASCII whitespace). -/
def isPySpace (c : Char) : Bool :=
  c == ' ' || c == '\t' || c == '\n' || c == '\r' || c == '\x0b' || c == '\x0c'

/-- Python `str.strip()` on a character list. -/
def pyStripList (l : List Char) : List Char :=
  ((l.dropWhile isPySpace).reverse.dropWhile isPySpace).reverse

/-- Python `str.strip()`. -/
def pyStrip (s : String) : String :=
  ⟨pyStripList s.data⟩

/-- Python `str.split(sep)` with an explicit one-character separator:
splits on every occurrence, keeping empty pieces (`"".split(',') = ['']`). -/
def splitOnChar (sep : Char) : List Char → List (List Char)
  | [] => [[]]
  | c :: rest =>
    let r := splitOnChar sep rest
    if c == sep then [] :: r
    else
      match r with
      | [] => [[c]]
      | h :: t => (c :: h) :: t

/-- Python `str.upper()` (restricted to ASCII, which is all the feed carries). -/
def pyUpper (s : String) : String :=
  ⟨s.data.map Char.toUpper⟩

/-- Python `s[n:]` (slice by code points). -/
def pyDrop (n : Nat) (s : String) : String :=
  ⟨s.data.drop n⟩

/-- Python `str.startswith(pfx)`. -/
def charListPrefix : List Char → List Char → Bool
  | [], _ => true
  | _ :: _, [] => false
  | a :: as, b :: bs => a == b && charListPrefix as bs

def pyStartsWith (s pfx : String) : Bool :=
  charListPrefix pfx.data s.data

/-- Numeric value of a digit run. -/
def digitsToNat (l : List Char) : Nat :=
  l.foldl (fun a c => a * 10 + (c.toNat - 48)) 0

/-- A digit run as accepted by Python number literals passed to `int()` /
`float()`: nonempty groups of ASCII digits, with single underscores allowed
between groups. -/
def pyDigitRun (l : List Char) : Bool :=
  (splitOnChar '_' l).all (fun p => !p.isEmpty && p.all Char.isDigit)

/-- Value of a digit run once underscores are removed. -/
def digitRunVal (l : List Char) : Nat :=
  digitsToNat (l.filter (fun c => c != '_'))

/-- Python `int(s)`: optional surrounding whitespace, optional sign, then a
digit run; `none` when `int` would raise `ValueError`. -/
def pyInt (s : String) : Option Int :=
  let t := pyStripList s.data
  match t with
  | '-' :: rest => if pyDigitRun rest then some (-(digitRunVal rest : Int)) else none
  | '+' :: rest => if pyDigitRun rest then some ((digitRunVal rest : Int)) else none
  | rest => if pyDigitRun rest then some ((digitRunVal rest : Int)) else none

/-- Mantissa part of a Python float literal: `D`, `D.`, `D.D` or `.D`. -/
def pyFloatMantissaOk (l : List Char) : Bool :=
  match splitOnChar '.' l with
  | [a] => pyDigitRun a
  | [a, b] => (pyDigitRun a && (b.isEmpty || pyDigitRun b)) || (a.isEmpty && pyDigitRun b)
  | _ => false

/-- Exponent part of a Python float literal. -/
def pyFloatExpOk (l : List Char) : Bool :=
  match l with
  | '+' :: r => pyDigitRun r
  | '-' :: r => pyDigitRun r
  | r => pyDigitRun r

/-- Unsigned body of a Python float literal, exponent included. -/
def pyFloatBodyOk (l : List Char) : Bool :=
  match splitOnChar 'e' (l.map Char.toLower) with
  | [m] => pyFloatMantissaOk m
  | [m, ex] => pyFloatMantissaOk m && pyFloatExpOk ex
  | _ => false

/-- Whether Python `float(s)` succeeds (the value itself is never used by
the collector's control flow, so only acceptance is modelled). -/
def pyFloatOk (s : String) : Bool :=
  let t := pyStripList s.data
  let t1 := match t with
    | '+' :: r => r
    | '-' :: r => r
    | r => r
  let low := t1.map Char.toLower
  low == "inf".data || low == "infinity".data || low == "nan".data || pyFloatBodyOk t1

/-- A bounded digit field as matched by a `strptime` numeric directive. -/
def strpNumOk (l : List Char) (maxLen lo hi : Nat) : Bool :=
  !l.isEmpty && decide (l.length ≤ maxLen) && l.all Char.isDigit
    && decide (lo ≤ digitsToNat l) && decide (digitsToNat l ≤ hi)

/-- Abstraction of `datetime.strptime(date, "%Y/%m/%d")` acceptance. -/
def strptimeDateOk (s : String) : Bool :=
  match splitOnChar '/' s.data with
  | [y, m, d] => strpNumOk y 4 0 9999 && strpNumOk m 2 1 12 && strpNumOk d 2 1 31
  | _ => false

/-- Abstraction of `datetime.strptime(time, "%H:%M:%S.%f")` acceptance. -/
def strptimeTimeOk (s : String) : Bool :=
  match splitOnChar ':' s.data with
  | [h, mi, sec] =>
    strpNumOk h 2 0 23 && strpNumOk mi 2 0 59 &&
      (match splitOnChar '.' sec with
       | [ss, f] => strpNumOk ss 2 0 61 && strpNumOk f 6 0 999999
       | _ => false)
  | _ => false

/-! ### Python exceptions -/

/-- The only Python exception the embedded code can raise itself. -/
inductive PyErr where
  | valueError
  deriving Repr, DecidableEq

/-! ### The decoder: `parse_basestation_message` -/

/-- One decoded BaseStation report (`data` dict of
`parse_basestation_message`). -/
structure ReportData where
  msg_type : String
  transmission_type : Option Int
  icao_address : Option String
  callsign : Option String
  altitude : Option Int
  ground_speed : Option Int
  track : Option Int
  latitude : Option String
  longitude : Option String
  vertical_rate : Option Int
  squawk : Option String
  alert : Option Int
  emergency : Option Int
  spi : Option Int
  is_on_ground : Option Int
  reported_time : Option String
  deriving Repr, DecidableEq

/-- `int(f) if f else None`: empty field is null, otherwise `int` may raise. -/
def pyIntOpt (s : String) : Except PyErr (Option Int) :=
  if s = "" then Except.ok none
  else
    match pyInt s with
    | some n => Except.ok (some n)
    | none => Except.error PyErr.valueError

/-- `float(f) if f else None`, keeping the accepted text. -/
def pyFloatOpt (s : String) : Except PyErr (Option String) :=
  if s = "" then Except.ok none
  else if pyFloatOk s then Except.ok (some s) else Except.error PyErr.valueError

/-- The callsign extraction of `parse_basestation_message` (lines 500-507):
`callsign = fields[10].strip() if len(fields) > 10 and fields[10] else None`,
then only when the result is truthy it is stripped again, upper-cased and
normalized to `None` when empty.  Note: when `fields[10]` is all blanks the
first strip yields `""`, the `if callsign:` guard fails, and the value stays
the explicit empty string. -/
def normCallsign (f10 : String) : Option String :=
  let c0 : Option String := if f10 = "" then none else some (pyStrip f10)
  match c0 with
  | none => none
  | some c =>
    if c = "" then some c
    else
      let c2 := pyUpper (pyStrip c)
      if c2 = "" then none else some c2

/-- The `data = { ... }` dictionary construction plus the timestamp block,
evaluating the fields in source order; any failing `int`/`float` raises. -/
def buildData (fields : List String) : Except PyErr ReportData := do
  let ttype ← pyIntOpt (fields.getD 1 "")
  let altitude ← pyIntOpt (fields.getD 11 "")
  let gs ← pyIntOpt (fields.getD 12 "")
  let track ← pyIntOpt (fields.getD 13 "")
  let lat ← pyFloatOpt (fields.getD 14 "")
  let lon ← pyFloatOpt (fields.getD 15 "")
  let vr ← pyIntOpt (fields.getD 16 "")
  let alr ← pyIntOpt (fields.getD 18 "")
  let emerg ← pyIntOpt (fields.getD 19 "")
  let spi ← pyIntOpt (fields.getD 20 "")
  let ground ← pyIntOpt (fields.getD 21 "")
  pure { msg_type := fields.getD 0 "",
         transmission_type := ttype,
         icao_address := if fields.getD 4 "" = "" then none
                         else some (pyStrip (fields.getD 4 "")),
         callsign := normCallsign (fields.getD 10 ""),
         altitude := altitude, ground_speed := gs,
         track := track, latitude := lat, longitude := lon,
         vertical_rate := vr,
         squawk := if fields.getD 17 "" = "" then none
                   else some (pyStrip (fields.getD 17 "")),
         alert := alr, emergency := emerg, spi := spi, is_on_ground := ground,
         reported_time :=
           if fields.getD 6 "" ≠ "" ∧ fields.getD 7 "" ≠ "" then
             (if strptimeDateOk (fields.getD 6 "") && strptimeTimeOk (fields.getD 7 "")
              then some (fields.getD 6 "" ++ " " ++ fields.getD 7 "") else none)
           else none }

/-- `fields = line.strip().split(',')`. -/
def lineFields (line : String) : List String :=
  (splitOnChar ',' (pyStripList line.data)).map (fun l => (⟨l⟩ : String))

/-- `parse_basestation_message(line)` (lines 487-541): `Except.ok none` is a
structural rejection (`return None`), `Except.error` a Python exception
escaping the function. -/
def parse_basestation_message (line : String) : Except PyErr (Option ReportData) :=
  let fields := lineFields line
  if fields.length < 22 then Except.ok none
  else if fields.getD 0 "" ≠ "MSG" then Except.ok none
  else (buildData fields).map some

/-! ### Persistent store and in-memory state

Timestamps (`SYSDATE`, `CURRENT_TIMESTAMP`, `datetime.now()`) are a single
logical clock in minutes, passed to each operation as `now`; the continuity
timeout `FLIGHT_TIMEOUT_MINUTES` is the `timeout` parameter. -/

/-- One row of the `flights` table. -/
structure FlightRow where
  flight_id : Nat
  icao_address : String
  callsign : Option String
  is_active : Bool
  last_contact : Int
  deriving Repr, DecidableEq

/-- One entry of the module-level `active_flights` dict. -/
structure CacheEntry where
  flight_id : Nat
  last_seen : Int
  deriving Repr, DecidableEq

/-- One value of the `aircraft_db` reference cache. -/
structure AircraftInfo where
  registration : String
  aircraft_type : String
  manufacturer : String
  model : String
  ownop : String
  deriving Repr, DecidableEq

/-- One row of the `aircraft` table. -/
structure AircraftRow where
  icao_address : String
  registration : Option String
  aircraft_type : Option String
  manufacturer : Option String
  model : Option String
  operator_name : Option String
  photo_url : Option String
  last_seen : Int
  deriving Repr, DecidableEq

/-- One row of the `positions` table. -/
structure PositionRow where
  flight_id : Nat
  icao_address : String
  msg_type : String
  transmission_type : Option Int
  reported_time : Option String
  callsign : Option String
  altitude : Option Int
  ground_speed : Option Int
  track : Option Int
  latitude : Option String
  longitude : Option String
  vertical_rate : Option Int
  squawk : Option String
  alert : Option Int
  emergency : Option Int
  spi : Option Int
  is_on_ground : Option Int
  deriving Repr, DecidableEq

/-- One entry of the in-memory `alert_rules` list
(`alert_id, alert_type, alert_value`). -/
structure AlertRule where
  alert_id : Nat
  alert_type : String
  alert_value : String
  deriving Repr, DecidableEq

/-- One row of the `alert_history` table. -/
structure AlertEventRow where
  alert_id : Nat
  flight_id : Nat
  icao_address : Option String
  callsign : Option String
  altitude : Option Int
  latitude : Option String
  longitude : Option String
  deriving Repr, DecidableEq

/-- The collector's whole mutable world: Oracle tables plus the module-level
caches.  `alerts` is the `alerts` table projected to
`(alert_id, last_triggered)` (all the collector ever writes to it). -/
structure Sys where
  flights : List FlightRow
  next_flight_id : Nat
  active_flights : List (String × CacheEntry)
  aircraft : List AircraftRow
  positions : List PositionRow
  alert_rules : List AlertRule
  alert_history : List AlertEventRow
  alerts : List (Nat × Option Int)
  aircraft_db : List (String × AircraftInfo)
  deriving Repr, DecidableEq

/-- Cold-start state: empty tables and caches. -/
def sysInit : Sys :=
  { flights := [], next_flight_id := 1, active_flights := [], aircraft := [],
    positions := [], alert_rules := [], alert_history := [], alerts := [],
    aircraft_db := [] }

/-! ### Association-list helpers (Python dict semantics) -/

/-- `d[k]` lookup. -/
def assocLookup {α : Type} : List (String × α) → String → Option α
  | [], _ => none
  | kv :: rest, k => if kv.1 = k then some kv.2 else assocLookup rest k

/-- Remove every entry for a key. -/
def assocErase {α : Type} : List (String × α) → String → List (String × α)
  | [], _ => []
  | kv :: rest, k => if kv.1 = k then assocErase rest k else kv :: assocErase rest k

/-- `d[k] = v` (replacing semantics of a Python dict). -/
def assocInsert {α : Type} (c : List (String × α)) (k : String) (v : α) :
    List (String × α) :=
  (k, v) :: assocErase c k

/-- Truthiness of an optional string (`None` and `""` are falsy). -/
def pyTruthyStr : Option String → Bool
  | some s => !(s = "")
  | none => false

/-! ### Flight lifecycle: `get_or_create_flight` (lines 391-485) -/

/-- The contact refresh issued by the warm and resume paths: update the row
with the matching `flight_id`, setting `last_contact = now` and, only when
the incoming callsign is truthy, `callsign` too. -/
def updateFlightContact (fid : Nat) (callsign : Option String) (now : Int)
    (f : FlightRow) : FlightRow :=
  if f.flight_id = fid then
    { f with last_contact := now,
             callsign := if pyTruthyStr callsign then callsign else f.callsign }
  else f

/-- The rows matched by the cold-path query (lines 424-434):
`icao_address = :icao AND is_active = 1 AND last_contact > SYSDATE - timeout`. -/
def coldCandidates (timeout : Int) (s : Sys) (icao : String) (now : Int) :
    List FlightRow :=
  s.flights.filter (fun f =>
    decide (f.icao_address = icao) && f.is_active && decide (f.last_contact > now - timeout))

/-- `ORDER BY last_contact DESC FETCH FIRST 1 ROWS ONLY`: a row of maximal
`last_contact` (ties broken arbitrarily by the database; here: first wins). -/
def pickLatest : List FlightRow → Option FlightRow
  | [] => none
  | f :: rest =>
    match pickLatest rest with
    | none => some f
    | some g => if g.last_contact > f.last_contact then some g else some f

/-- `get_or_create_flight(cursor, icao_address, callsign)`: warm-cache hit,
cold resume, or creation of a fresh flight.  The fresh `INSERT` does not set
`last_contact`; its value `now` is the schema default `CURRENT_TIMESTAMP`,
modelled from the spec (first-contact/last-contact = now, §4.2 step 3). -/
def get_or_create_flight (timeout : Int) (s : Sys) (icao : String)
    (callsign : Option String) (now : Int) : Nat × Sys :=
  match assocLookup s.active_flights icao with
  | some e =>
    (e.flight_id,
     { s with active_flights := assocInsert s.active_flights icao ⟨e.flight_id, now⟩,
              flights := s.flights.map (updateFlightContact e.flight_id callsign now) })
  | none =>
    match pickLatest (coldCandidates timeout s icao now) with
    | some r =>
      (r.flight_id,
       { s with active_flights := assocInsert s.active_flights icao ⟨r.flight_id, now⟩,
                flights := s.flights.map (updateFlightContact r.flight_id callsign now) })
    | none =>
      let fid := s.next_flight_id
      (fid,
       { s with flights := s.flights ++
                  [⟨fid, icao, (if pyTruthyStr callsign then callsign else none), true, now⟩],
                next_flight_id := fid + 1,
                active_flights := assocInsert s.active_flights icao ⟨fid, now⟩ })

/-! ### The sweep: `cleanup_stale_flights` (lines 129-153) -/

/-- Modelled from the spec: the per-row effect of the store-side
`end_stale_flights` procedure, which is not part of the repository's Python
sources; per §6 its contract is "sets is-active = false on rows past the
continuity timeout". -/
def endFlightRow (timeout now : Int) (f : FlightRow) : FlightRow :=
  if f.is_active && decide (now - f.last_contact > timeout)
  then { f with is_active := false } else f

/-- Modelled from the spec: the store-side `end_stale_flights` procedure. -/
def end_stale_flights (timeout : Int) (now : Int) (flights : List FlightRow) :
    List FlightRow :=
  flights.map (endFlightRow timeout now)

/-- `cleanup_stale_flights(cursor)`: call the procedure, then drop cache
entries with `current_time - last_seen > timedelta(minutes=timeout)`. -/
def cleanup_stale_flights (timeout : Int) (s : Sys) (now : Int) : Sys :=
  { s with flights := end_stale_flights timeout now s.flights,
           active_flights := s.active_flights.filter
             (fun kv => !(decide (now - kv.2.last_seen > timeout))) }

/-! ### Alert evaluator: `check_alerts` (lines 155-204) -/

/-- Truthiness of `data['altitude']` (`None` and `0` are falsy). -/
def optAltTruthy : Option Int → Bool
  | some n => !(n = 0)
  | none => false

/-- `int(s)` raising `ValueError` on failure. -/
def pyIntE (s : String) : Except PyErr Int :=
  match pyInt s with
  | some n => Except.ok n
  | none => Except.error PyErr.valueError

/-- Body of the altitude-threshold `try:` block (lines 171-175):
`int(alert_value[1:])` may raise. -/
def altitudeRuleBody (value : String) (alt : Int) : Except PyErr Bool :=
  if pyStartsWith value ">" then do
    let n ← pyIntE (pyDrop 1 value)
    pure (decide (alt > n))
  else if pyStartsWith value "<" then do
    let n ← pyIntE (pyDrop 1 value)
    pure (decide (alt < n))
  else pure false

/-- The guarded altitude branch: `try: ... except: pass` leaves `triggered`
as `False` when the body raises. -/
def altitudeTriggered (value : String) (altOpt : Option Int) : Except PyErr Bool :=
  match altOpt with
  | some alt =>
    match altitudeRuleBody value alt with
    | Except.ok b => Except.ok b
    | Except.error _ => Except.ok false
  | none => Except.ok false

/-- The `triggered` computation for one rule (the `if`/`elif` chain, lines
160-177); the altitude branch wraps its body in `try ... except: pass`, so
it never propagates an exception. -/
def ruleTriggeredE (rule : AlertRule) (data : ReportData) : Except PyErr Bool :=
  if rule.alert_type = "ICAO" ∧ data.icao_address = some (pyUpper rule.alert_value) then
    Except.ok true
  else if rule.alert_type = "CALLSIGN" ∧ data.callsign = some (pyUpper rule.alert_value) then
    Except.ok true
  else if rule.alert_type = "SQUAWK" ∧ data.squawk = some rule.alert_value then
    Except.ok true
  else if rule.alert_type = "ALTITUDE" ∧ optAltTruthy data.altitude then
    altitudeTriggered rule.alert_value data.altitude
  else Except.ok false

/-- The `INSERT INTO alert_history` row of a match (lines 181-193). -/
def mkAlertEvent (rule : AlertRule) (data : ReportData) (fid : Nat) : AlertEventRow :=
  { alert_id := rule.alert_id, flight_id := fid,
    icao_address := data.icao_address, callsign := data.callsign,
    altitude := data.altitude, latitude := data.latitude,
    longitude := data.longitude }

/-- One iteration of the `for alert_id, alert_type, alert_value in
alert_rules` loop: on a match, append the event row and set the rule's
`last_triggered` to `CURRENT_TIMESTAMP`. -/
def checkAlertsStep (data : ReportData) (fid : Nat) (now : Int) (s : Sys)
    (rule : AlertRule) : Except PyErr Sys := do
  let t ← ruleTriggeredE rule data
  if t then
    pure { s with
      alert_history := s.alert_history ++ [mkAlertEvent rule data fid],
      alerts := s.alerts.map (fun a => if a.1 = rule.alert_id then (a.1, some now) else a) }
  else pure s

/-- `check_alerts(cursor, data, flight_id)`. -/
def check_alerts (s : Sys) (data : ReportData) (fid : Nat) (now : Int) :
    Except PyErr Sys :=
  if s.alert_rules = [] then Except.ok s
  else s.alert_rules.foldlM (checkAlertsStep data fid now) s

/-! ### `ensure_aircraft_exists` (lines 332-389) -/

/-- `aircraft_db.get(icao.upper(), {}).get('registration')` and friends. -/
def dbField (info : Option AircraftInfo) (f : AircraftInfo → String) : Option String :=
  match info with
  | some i => some (f i)
  | none => none

def mkPhotoUrl (r : String) : String :=
  "https://www.jetphotos.com/registration/" ++ r

/-- The effect of `ensure_aircraft_exists` on the `aircraft` table: insert
the row on first sighting (enriched from `aircraft_db`), else refresh
`last_seen` (and `photo_url` where the row lacks photo or registration). -/
def ensureAircraftTable (tbl : List AircraftRow) (db : List (String × AircraftInfo))
    (icao : String) (now : Int) : List AircraftRow :=
  let info := assocLookup db (pyUpper icao)
  let registration := dbField info AircraftInfo.registration
  if (tbl.filter (fun a => decide (a.icao_address = icao))).isEmpty then
    let photo := if pyTruthyStr registration
      then (match registration with
            | some r => some (mkPhotoUrl r)
            | none => none)
      else none
    tbl ++
      [{ icao_address := icao, registration := registration,
         aircraft_type := dbField info AircraftInfo.aircraft_type,
         manufacturer := dbField info AircraftInfo.manufacturer,
         model := dbField info AircraftInfo.model,
         operator_name := dbField info AircraftInfo.ownop,
         photo_url := photo, last_seen := now }]
  else if pyTruthyStr registration then
    tbl.map (fun a =>
      if a.icao_address = icao ∧ (a.photo_url = none ∨ a.registration = none) then
        { a with last_seen := now,
                 photo_url := (match registration with
                               | some r => some (mkPhotoUrl r)
                               | none => none) }
      else a)
  else
    tbl.map (fun a =>
      if a.icao_address = icao then { a with last_seen := now } else a)

/-- `ensure_aircraft_exists(cursor, icao_address)` (lines 332-389): only the
`aircraft` table is touched.  The fresh `INSERT` does not set `last_seen`;
`now` models its schema default. -/
def ensure_aircraft_exists (s : Sys) (icao : String) (now : Int) : Sys :=
  { s with aircraft := ensureAircraftTable s.aircraft s.aircraft_db icao now }

/-! ### Hot path: `store_position` (lines 543-592) -/

/-- The sub-operations of `store_position`, in the order the source performs
them; `store_position` returns them as a trace so that their relative order
is part of the embedding. -/
inductive HotEvent where
  | ensureAircraft (icao : String)
  | flightResolved (fid : Nat)
  | alertsChecked (fid : Nat)
  | positionInserted (fid : Nat)
  deriving Repr, DecidableEq

/-- The `INSERT INTO positions` row (lines 559-588). -/
def mkPositionRow (data : ReportData) (fid : Nat) (icao : String) : PositionRow :=
  { flight_id := fid, icao_address := icao, msg_type := data.msg_type,
    transmission_type := data.transmission_type,
    reported_time := data.reported_time, callsign := data.callsign,
    altitude := data.altitude, ground_speed := data.ground_speed,
    track := data.track, latitude := data.latitude,
    longitude := data.longitude, vertical_rate := data.vertical_rate,
    squawk := data.squawk, alert := data.alert, emergency := data.emergency,
    spi := data.spi, is_on_ground := data.is_on_ground }

/-- `store_position(cursor, data)`: return immediately when
`data['icao_address']` is falsy; otherwise run, in source order (lines
550-588): `ensure_aircraft_exists`, `get_or_create_flight`, `check_alerts`,
and only then the position `INSERT`.  The trace records that order. -/
def store_position (timeout : Int) (s : Sys) (data : ReportData) (now : Int) :
    Except PyErr (Sys × List HotEvent) :=
  match data.icao_address with
  | none => Except.ok (s, [])
  | some icao =>
    if icao = "" then Except.ok (s, [])
    else do
      let s1 := ensure_aircraft_exists s icao now
      let p := get_or_create_flight timeout s1 icao data.callsign now
      let fid := p.1
      let s3 ← check_alerts p.2 data fid now
      let s4 := { s3 with positions := s3.positions ++ [mkPositionRow data fid icao] }
      pure (s4, [HotEvent.ensureAircraft icao, HotEvent.flightResolved fid,
                 HotEvent.alertsChecked fid, HotEvent.positionInserted fid])

/-! ### Basic lemmas about the embedding's building blocks -/

theorem except_bind_ok {α β : Type} (a : α) (f : α → Except PyErr β) :
    (Except.ok a >>= f) = f a := rfl

theorem assocLookup_insert_self {α : Type} (c : List (String × α)) (k : String) (v : α) :
    assocLookup (assocInsert c k v) k = some v := by
  simp [assocInsert, assocLookup]

theorem assocLookup_erase_ne {α : Type} (c : List (String × α)) (k k' : String)
    (h : k' ≠ k) : assocLookup (assocErase c k) k' = assocLookup c k' := by
  induction c with
  | nil => rfl
  | cons kv rest ih =>
    obtain ⟨k1, v1⟩ := kv
    simp only [assocErase]
    by_cases hk : k1 = k
    · rw [if_pos hk, ih]
      have hne : ¬ (k1 = k') := fun hc => h (by rw [← hc]; exact hk)
      simp only [assocLookup]
      rw [if_neg hne]
    · rw [if_neg hk]
      simp only [assocLookup]
      by_cases hk' : k1 = k'
      · rw [if_pos hk', if_pos hk']
      · rw [if_neg hk', if_neg hk', ih]

theorem assocLookup_insert_ne {α : Type} (c : List (String × α)) (k k' : String) (v : α)
    (h : k' ≠ k) : assocLookup (assocInsert c k v) k' = assocLookup c k' := by
  simp only [assocInsert, assocLookup]
  rw [if_neg (fun hc : k = k' => h hc.symm)]
  exact assocLookup_erase_ne c k k' h

theorem assocLookup_mem {α : Type} (c : List (String × α)) (k : String) (v : α)
    (h : assocLookup c k = some v) : (k, v) ∈ c := by
  induction c with
  | nil => simp [assocLookup] at h
  | cons kv rest ih =>
    obtain ⟨k1, v1⟩ := kv
    simp only [assocLookup] at h
    by_cases hk : k1 = k
    · rw [if_pos hk] at h
      injection h with hv
      rw [← hk, ← hv]
      exact List.mem_cons_self _ _
    · rw [if_neg hk] at h
      exact List.mem_cons_of_mem _ (ih h)

theorem assocErase_mem {α : Type} (c : List (String × α)) (k : String) (kv : String × α)
    (h : kv ∈ assocErase c k) : kv ∈ c ∧ kv.1 ≠ k := by
  induction c with
  | nil => simp [assocErase] at h
  | cons hd rest ih =>
    obtain ⟨k1, v1⟩ := hd
    simp only [assocErase] at h
    by_cases hk : k1 = k
    · rw [if_pos hk] at h
      exact ⟨List.mem_cons_of_mem _ (ih h).1, (ih h).2⟩
    · rw [if_neg hk] at h
      rcases List.mem_cons.mp h with h | h
      · refine ⟨by rw [h]; exact List.mem_cons_self _ _, ?_⟩
        rw [h]
        exact hk
      · exact ⟨List.mem_cons_of_mem _ (ih h).1, (ih h).2⟩

theorem assocLookup_filter_kept {α : Type} (c : List (String × α)) (k : String) (v : α)
    (p : String × α → Bool) (h : assocLookup c k = some v) (hp : p (k, v) = true) :
    assocLookup (c.filter p) k = some v := by
  induction c with
  | nil => simp [assocLookup] at h
  | cons kv rest ih =>
    obtain ⟨k1, v1⟩ := kv
    simp only [assocLookup] at h
    by_cases hk : k1 = k
    · rw [if_pos hk] at h
      injection h with hv
      rw [List.filter_cons, if_pos (by rw [hk, hv]; exact hp)]
      simp only [assocLookup]
      rw [if_pos hk, hv]
    · rw [if_neg hk] at h
      rw [List.filter_cons]
      by_cases hpk : p (k1, v1) = true
      · rw [if_pos hpk]
        simp only [assocLookup]
        rw [if_neg hk]
        exact ih h
      · rw [if_neg hpk]
        exact ih h

theorem updateFlightContact_id (fid : Nat) (cs : Option String) (now : Int)
    (f : FlightRow) : (updateFlightContact fid cs now f).flight_id = f.flight_id := by
  unfold updateFlightContact; split <;> rfl

theorem updateFlightContact_active (fid : Nat) (cs : Option String) (now : Int)
    (f : FlightRow) : (updateFlightContact fid cs now f).is_active = f.is_active := by
  unfold updateFlightContact; split <;> rfl

theorem updateFlightContact_icao (fid : Nat) (cs : Option String) (now : Int)
    (f : FlightRow) : (updateFlightContact fid cs now f).icao_address = f.icao_address := by
  unfold updateFlightContact; split <;> rfl

theorem updateFlightContact_ne (fid : Nat) (cs : Option String) (now : Int)
    (f : FlightRow) (h : f.flight_id ≠ fid) : updateFlightContact fid cs now f = f := by
  unfold updateFlightContact; rw [if_neg h]

theorem updateFlightContact_eq (fid : Nat) (cs : Option String) (now : Int)
    (f : FlightRow) (h : f.flight_id = fid) :
    updateFlightContact fid cs now f =
      { f with last_contact := now,
               callsign := if pyTruthyStr cs then cs else f.callsign } := by
  unfold updateFlightContact; rw [if_pos h]

theorem pickLatest_none (l : List FlightRow) (h : pickLatest l = none) : l = [] := by
  cases l with
  | nil => rfl
  | cons f rest =>
    exfalso
    cases hr : pickLatest rest with
    | none => simp [pickLatest, hr] at h
    | some g =>
      by_cases hgt : g.last_contact > f.last_contact <;> simp [pickLatest, hr, hgt] at h

theorem pickLatest_mem (l : List FlightRow) :
    ∀ r, pickLatest l = some r → r ∈ l := by
  induction l with
  | nil => intro r h; simp [pickLatest] at h
  | cons f rest ih =>
    intro r h
    cases hr : pickLatest rest with
    | none =>
      have he : pickLatest (f :: rest) = some f := by simp [pickLatest, hr]
      rw [he] at h
      injection h with h
      subst h
      exact List.mem_cons_self _ _
    | some g =>
      by_cases hgt : g.last_contact > f.last_contact
      · have he : pickLatest (f :: rest) = some g := by simp [pickLatest, hr, hgt]
        rw [he] at h
        injection h with h
        subst h
        exact List.mem_cons_of_mem _ (ih _ hr)
      · have he : pickLatest (f :: rest) = some f := by simp [pickLatest, hr, hgt]
        rw [he] at h
        injection h with h
        subst h
        exact List.mem_cons_self _ _

theorem pickLatest_max (l : List FlightRow) :
    ∀ r, pickLatest l = some r → ∀ c ∈ l, c.last_contact ≤ r.last_contact := by
  induction l with
  | nil => intro r h; simp [pickLatest] at h
  | cons f rest ih =>
    intro r h c hc
    cases hr : pickLatest rest with
    | none =>
      have hrest : rest = [] := pickLatest_none rest hr
      subst hrest
      have he : pickLatest [f] = some f := by simp [pickLatest]
      rw [he] at h
      injection h with h
      subst h
      rcases List.mem_cons.mp hc with hc | hc
      · rw [hc]
      · simp at hc
    | some g =>
      by_cases hgt : g.last_contact > f.last_contact
      · have he : pickLatest (f :: rest) = some g := by simp [pickLatest, hr, hgt]
        rw [he] at h
        injection h with h
        subst h
        rcases List.mem_cons.mp hc with hc | hc
        · rw [hc]; exact le_of_lt hgt
        · exact ih g hr c hc
      · have he : pickLatest (f :: rest) = some f := by simp [pickLatest, hr, hgt]
        rw [he] at h
        injection h with h
        subst h
        rcases List.mem_cons.mp hc with hc | hc
        · rw [hc]
        · exact le_trans (ih g hr c hc) (not_lt.mp hgt)

/-- Rows of a list with pairwise distinct `flight_id`s are determined by
their id. -/
theorem flightRow_eq_of_nodup (l : List FlightRow)
    (hnd : (l.map FlightRow.flight_id).Nodup) (f g : FlightRow)
    (hf : f ∈ l) (hg : g ∈ l) (hid : f.flight_id = g.flight_id) : f = g := by
  induction l with
  | nil => simp at hf
  | cons a t ih =>
    simp only [List.map_cons, List.nodup_cons] at hnd
    rcases List.mem_cons.mp hf with hf1 | hf1 <;>
      rcases List.mem_cons.mp hg with hg1 | hg1
    · rw [hf1, hg1]
    · exfalso
      exact hnd.1 (by rw [hf1] at hid; rw [hid]; exact List.mem_map_of_mem _ hg1)
    · exfalso
      exact hnd.1 (by rw [hg1] at hid; rw [← hid]; exact List.mem_map_of_mem _ hf1)
    · exact ih hnd.2 hf1 hg1

/-! ### Concrete inputs shared by witnesses and counterexamples -/

/-- A report with every nullable field absent. -/
def reportBase : ReportData :=
  { msg_type := "MSG", transmission_type := none, icao_address := none,
    callsign := none, altitude := none, ground_speed := none, track := none,
    latitude := none, longitude := none, vertical_rate := none, squawk := none,
    alert := none, emergency := none, spi := none, is_on_ground := none,
    reported_time := none }

/-- A structurally valid line whose altitude field is the non-numeric
non-empty text `abc`. -/
def c2BadLine : String := "MSG,3,1,1,ABC123,1,,,,,UAL123,abc,,,,,,,,,,0"

/-- A fully well-formed surveillance line. -/
def c2GoodLine : String :=
  "MSG,3,1,1,ABC123,1,2026/01/01,00:00:00.000,2026/01/01,00:00:00.000,UAL123,35000,450,90,41.5,-87.6,0,1200,0,0,0,0"

/-- A structurally valid line whose callsign field (index 10) is all blanks. -/
def c7Line : String := "MSG,3,1,1,ABC123,1,,,,,   ,,,,,,,,,,,0"

/-- The report the decoder produces for `c7Line`. -/
def c7Report : ReportData :=
  { reportBase with transmission_type := some 3, icao_address := some "ABC123",
                    callsign := some "", is_on_ground := some 0 }

/-! ### C8 — structural rejection is exactly field-count / marker failure -/

/-- C8: `parse_basestation_message` returns `None` without error exactly when
the line is structurally invalid: fewer than 22 comma-separated fields, or a
first field different from the surveillance marker `MSG`. -/
theorem decoder_reject_iff_structural (line : String) :
    parse_basestation_message line = Except.ok none ↔
      ((lineFields line).length < 22 ∨ (lineFields line).getD 0 "" ≠ "MSG") := by
  unfold parse_basestation_message
  by_cases h1 : (lineFields line).length < 22
  · simp [h1]
  · rw [if_neg h1]
    by_cases h2 : (lineFields line).getD 0 "" ≠ "MSG"
    · rw [if_pos h2]
      exact ⟨fun _ => Or.inr h2, fun _ => rfl⟩
    · rw [if_neg h2]
      constructor
      · intro hmap
        cases hb : buildData (lineFields line) with
        | error e => rw [hb] at hmap; exact absurd hmap (by simp [Except.map])
        | ok r => rw [hb] at hmap; exact absurd hmap (by simp [Except.map])
      · intro hor
        rcases hor with hor | hor
        · exact absurd hor h1
        · exact absurd hor h2

/-! ### C2 — decoder totality (corrected) -/

/-- C2 counterexample: on a structurally valid line whose altitude field is
`abc`, the decoder does not degrade the field to null — `int('abc')` raises
`ValueError` past the decoder boundary. -/
theorem decoder_raises_on_bad_numeric_field :
    parse_basestation_message c2BadLine = Except.error PyErr.valueError := by
  rfl

/-- `int(f) if f else None` succeeds exactly when the field is empty or
`int`-parseable. -/
def intFieldOk (s : String) : Bool := decide (s = "") || (pyInt s).isSome

/-- `float(f) if f else None` succeeds exactly when the field is empty or
`float`-parseable. -/
def floatFieldOk (s : String) : Bool := decide (s = "") || pyFloatOk s

/-- All numeric fields of a line are empty or parseable. -/
def numericFieldsOk (line : String) : Bool :=
  intFieldOk ((lineFields line).getD 1 "") &&
  (intFieldOk ((lineFields line).getD 11 "") &&
  (intFieldOk ((lineFields line).getD 12 "") &&
  (intFieldOk ((lineFields line).getD 13 "") &&
  (floatFieldOk ((lineFields line).getD 14 "") &&
  (floatFieldOk ((lineFields line).getD 15 "") &&
  (intFieldOk ((lineFields line).getD 16 "") &&
  (intFieldOk ((lineFields line).getD 18 "") &&
  (intFieldOk ((lineFields line).getD 19 "") &&
  (intFieldOk ((lineFields line).getD 20 "") &&
   intFieldOk ((lineFields line).getD 21 ""))))))))))

theorem pyIntOpt_ok_of (s : String) (h : intFieldOk s = true) :
    ∃ v, pyIntOpt s = Except.ok v := by
  unfold intFieldOk at h
  rw [Bool.or_eq_true, decide_eq_true_eq] at h
  unfold pyIntOpt
  by_cases hs : s = ""
  · exact ⟨none, by rw [if_pos hs]⟩
  · have hsome : (pyInt s).isSome = true := by
      rcases h with h | h
      · exact absurd h hs
      · exact h
    obtain ⟨n, hn⟩ := Option.isSome_iff_exists.mp hsome
    exact ⟨some n, by rw [if_neg hs, hn]⟩

theorem pyFloatOpt_ok_of (s : String) (h : floatFieldOk s = true) :
    ∃ v, pyFloatOpt s = Except.ok v := by
  unfold floatFieldOk at h
  rw [Bool.or_eq_true, decide_eq_true_eq] at h
  unfold pyFloatOpt
  by_cases hs : s = ""
  · exact ⟨none, by rw [if_pos hs]⟩
  · have hfl : pyFloatOk s = true := by
      rcases h with h | h
      · exact absurd h hs
      · exact h
    exact ⟨some s, by rw [if_neg hs, if_pos hfl]⟩

theorem buildData_ok (fields : List String)
    (v1 v11 v12 v13 v16 v18 v19 v20 v21 : Option Int) (v14 v15 : Option String)
    (h1 : pyIntOpt (fields.getD 1 "") = Except.ok v1)
    (h11 : pyIntOpt (fields.getD 11 "") = Except.ok v11)
    (h12 : pyIntOpt (fields.getD 12 "") = Except.ok v12)
    (h13 : pyIntOpt (fields.getD 13 "") = Except.ok v13)
    (h14 : pyFloatOpt (fields.getD 14 "") = Except.ok v14)
    (h15 : pyFloatOpt (fields.getD 15 "") = Except.ok v15)
    (h16 : pyIntOpt (fields.getD 16 "") = Except.ok v16)
    (h18 : pyIntOpt (fields.getD 18 "") = Except.ok v18)
    (h19 : pyIntOpt (fields.getD 19 "") = Except.ok v19)
    (h20 : pyIntOpt (fields.getD 20 "") = Except.ok v20)
    (h21 : pyIntOpt (fields.getD 21 "") = Except.ok v21) :
    ∃ r, buildData fields = Except.ok r := by
  unfold buildData
  simp only [h1, h11, h12, h13, h14, h15, h16, h18, h19, h20, h21, except_bind_ok]
  exact ⟨_, rfl⟩

/-- C2 amended: the decoder is total (report or structural rejection, no
exception) on every line whose non-empty integer/float fields are numeric;
a non-empty non-numeric value in one of those fields instead raises a
`ValueError` past the decoder boundary (see
`decoder_raises_on_bad_numeric_field`); only the paired timestamp field
degrades to null on parse failure. -/
theorem decoder_total_on_numeric_fields (line : String)
    (h : numericFieldsOk line = true) :
    ∃ r : Option ReportData, parse_basestation_message line = Except.ok r := by
  unfold parse_basestation_message
  by_cases h1 : (lineFields line).length < 22
  · exact ⟨none, by rw [if_pos h1]⟩
  · rw [if_neg h1]
    by_cases h2 : (lineFields line).getD 0 "" ≠ "MSG"
    · exact ⟨none, by rw [if_pos h2]⟩
    · rw [if_neg h2]
      unfold numericFieldsOk at h
      simp only [Bool.and_eq_true] at h
      obtain ⟨hA, hB, hC, hD, hE, hF, hG, hH, hI, hJ, hK⟩ := h
      obtain ⟨w1, hw1⟩ := pyIntOpt_ok_of _ hA
      obtain ⟨w11, hw11⟩ := pyIntOpt_ok_of _ hB
      obtain ⟨w12, hw12⟩ := pyIntOpt_ok_of _ hC
      obtain ⟨w13, hw13⟩ := pyIntOpt_ok_of _ hD
      obtain ⟨w14, hw14⟩ := pyFloatOpt_ok_of _ hE
      obtain ⟨w15, hw15⟩ := pyFloatOpt_ok_of _ hF
      obtain ⟨w16, hw16⟩ := pyIntOpt_ok_of _ hG
      obtain ⟨w18, hw18⟩ := pyIntOpt_ok_of _ hH
      obtain ⟨w19, hw19⟩ := pyIntOpt_ok_of _ hI
      obtain ⟨w20, hw20⟩ := pyIntOpt_ok_of _ hJ
      obtain ⟨w21, hw21⟩ := pyIntOpt_ok_of _ hK
      obtain ⟨r, hr⟩ := buildData_ok (lineFields line) w1 w11 w12 w13 w16 w18 w19 w20 w21 w14 w15
        hw1 hw11 hw12 hw13 hw14 hw15 hw16 hw18 hw19 hw20 hw21
      exact ⟨some r, by rw [hr]; rfl⟩

theorem decoder_total_on_numeric_fields_witness :
    numericFieldsOk c2GoodLine = true ∧
    ∃ r : Option ReportData, parse_basestation_message c2GoodLine = Except.ok r :=
  ⟨by decide, decoder_total_on_numeric_fields c2GoodLine (by decide)⟩

/-! ### C7 — all-blank callsign (code bug) -/

/-- C7: the code contradicts its own normalization intent.  For a line whose
callsign field is all blanks, `fields[10].strip()` yields `""`, the
`if callsign:` guard is then falsy, and the `if not callsign: callsign =
None` branch is never reached — so the decoded callsign is the explicit
empty string, not an absent callsign.  Such a report even matches a
`CALLSIGN` alert rule whose value is empty. -/
theorem blank_callsign_not_normalized_to_none :
    parse_basestation_message c7Line = Except.ok (some c7Report) ∧
    c7Report.callsign = some "" ∧
    ruleTriggeredE ⟨1, "CALLSIGN", ""⟩ c7Report = Except.ok true := by
  exact ⟨rfl, rfl, rfl⟩

/-! ### C10 — `store_position` without a transponder address is a no-op -/

/-- C10: when the decoded transponder address is absent, `store_position`
returns immediately: the state (all tables and the local index) is
unchanged and no sub-operation runs. -/
theorem store_position_no_icao_noop (timeout now : Int) (s : Sys)
    (data : ReportData) (h : data.icao_address = none) :
    store_position timeout s data now = Except.ok (s, []) := by
  unfold store_position
  rw [h]

theorem store_position_no_icao_noop_witness :
    store_position 60 sysInit reportBase 0 = Except.ok (sysInit, []) :=
  store_position_no_icao_noop 60 0 sysInit reportBase rfl

/-! ### C6 — malformed altitude-threshold rules are inert -/

/-- The claim's notion of a well-formed altitude-threshold value: a `>` or
`<` prefix whose remainder `value[1:]` is `int`-parseable. -/
def thresholdWellFormed (value : String) : Prop :=
  (pyStartsWith value ">" = true ∨ pyStartsWith value "<" = true) ∧
    (pyInt (pyDrop 1 value)).isSome = true

instance instDecThresholdWellFormed (value : String) :
    Decidable (thresholdWellFormed value) := by
  unfold thresholdWellFormed
  infer_instance

/-- C6: an altitude-threshold rule whose value is malformed never matches
any report and never raises: its `triggered` computation is `False` with no
escaping exception, and the corresponding `check_alerts` loop iteration
leaves the state untouched (no `alert_history` row, no `last_triggered`
update). -/
theorem malformed_altitude_rule_inert (value : String)
    (h : ¬ thresholdWellFormed value) (aid : Nat) (data : ReportData)
    (fid : Nat) (now : Int) (s : Sys) :
    ruleTriggeredE ⟨aid, "ALTITUDE", value⟩ data = Except.ok false ∧
    checkAlertsStep data fid now s ⟨aid, "ALTITUDE", value⟩ = Except.ok s := by
  have key : ∀ ao : Option Int, altitudeTriggered value ao = Except.ok false := by
    intro ao
    cases ao with
    | none => rfl
    | some alt =>
      have hshow : altitudeTriggered value (some alt) =
          (match altitudeRuleBody value alt with
           | Except.ok b => Except.ok b
           | Except.error _ => Except.ok false) := rfl
      rw [hshow]
      by_cases hgt : pyStartsWith value ">" = true
      · have hnone : pyInt (pyDrop 1 value) = none :=
          Option.not_isSome_iff_eq_none.mp (fun hs => h ⟨Or.inl hgt, hs⟩)
        have hbody : altitudeRuleBody value alt = Except.error PyErr.valueError := by
          unfold altitudeRuleBody pyIntE
          rw [if_pos hgt, hnone]
          rfl
        rw [hbody]
      · by_cases hlt : pyStartsWith value "<" = true
        · have hnone : pyInt (pyDrop 1 value) = none :=
            Option.not_isSome_iff_eq_none.mp (fun hs => h ⟨Or.inr hlt, hs⟩)
          have hbody : altitudeRuleBody value alt = Except.error PyErr.valueError := by
            unfold altitudeRuleBody pyIntE
            rw [if_neg hgt, if_pos hlt, hnone]
            rfl
          rw [hbody]
        · have hbody : altitudeRuleBody value alt = Except.ok false := by
            unfold altitudeRuleBody
            rw [if_neg hgt, if_neg hlt]
            rfl
          rw [hbody]
  have htrig : ruleTriggeredE ⟨aid, "ALTITUDE", value⟩ data = Except.ok false := by
    unfold ruleTriggeredE
    have hI : ¬ ((⟨aid, "ALTITUDE", value⟩ : AlertRule).alert_type = "ICAO" ∧
        data.icao_address = some (pyUpper (⟨aid, "ALTITUDE", value⟩ : AlertRule).alert_value)) :=
      fun hc => by simpa using hc.1
    have hC : ¬ ((⟨aid, "ALTITUDE", value⟩ : AlertRule).alert_type = "CALLSIGN" ∧
        data.callsign = some (pyUpper (⟨aid, "ALTITUDE", value⟩ : AlertRule).alert_value)) :=
      fun hc => by simpa using hc.1
    have hS : ¬ ((⟨aid, "ALTITUDE", value⟩ : AlertRule).alert_type = "SQUAWK" ∧
        data.squawk = some (⟨aid, "ALTITUDE", value⟩ : AlertRule).alert_value) :=
      fun hc => by simpa using hc.1
    rw [if_neg hI, if_neg hC, if_neg hS]
    by_cases halt : optAltTruthy data.altitude = true
    · rw [if_pos ⟨rfl, halt⟩]
      exact key data.altitude
    · rw [if_neg (fun hc => halt hc.2)]
  refine ⟨htrig, ?_⟩
  unfold checkAlertsStep
  rw [htrig, except_bind_ok]
  rfl

/-- A malformed value with a comparator prefix and non-numeric remainder. -/
def altReport : ReportData :=
  { reportBase with icao_address := some "ABC123", altitude := some 40000 }

theorem malformed_altitude_rule_inert_witness :
    ruleTriggeredE ⟨1, "ALTITUDE", ">abc"⟩ altReport = Except.ok false ∧
    checkAlertsStep altReport 1 0 sysInit ⟨1, "ALTITUDE", ">abc"⟩ = Except.ok sysInit :=
  malformed_altitude_rule_inert ">abc" (by decide) 1 altReport 1 0 sysInit

/-! ### Resolve-path unfolding lemmas -/

theorem get_or_create_flight_warm (t now : Int) (s : Sys) (icao : String)
    (cs : Option String) (e : CacheEntry)
    (h : assocLookup s.active_flights icao = some e) :
    get_or_create_flight t s icao cs now =
      (e.flight_id,
       { s with active_flights := assocInsert s.active_flights icao ⟨e.flight_id, now⟩,
                flights := s.flights.map (updateFlightContact e.flight_id cs now) }) := by
  unfold get_or_create_flight
  rw [h]

theorem get_or_create_flight_cold_resume (t now : Int) (s : Sys) (icao : String)
    (cs : Option String) (r : FlightRow)
    (h : assocLookup s.active_flights icao = none)
    (hp : pickLatest (coldCandidates t s icao now) = some r) :
    get_or_create_flight t s icao cs now =
      (r.flight_id,
       { s with active_flights := assocInsert s.active_flights icao ⟨r.flight_id, now⟩,
                flights := s.flights.map (updateFlightContact r.flight_id cs now) }) := by
  unfold get_or_create_flight
  rw [h, hp]

theorem get_or_create_flight_cold_create (t now : Int) (s : Sys) (icao : String)
    (cs : Option String)
    (h : assocLookup s.active_flights icao = none)
    (hp : pickLatest (coldCandidates t s icao now) = none) :
    get_or_create_flight t s icao cs now =
      (s.next_flight_id,
       { s with flights := s.flights ++
                  [⟨s.next_flight_id, icao, (if pyTruthyStr cs then cs else none), true, now⟩],
                next_flight_id := s.next_flight_id + 1,
                active_flights := assocInsert s.active_flights icao ⟨s.next_flight_id, now⟩ }) := by
  unfold get_or_create_flight
  rw [h, hp]

theorem map_updateFlightContact_id (l : List FlightRow) (fid : Nat)
    (cs : Option String) (now : Int) :
    (l.map (updateFlightContact fid cs now)).map FlightRow.flight_id =
      l.map FlightRow.flight_id := by
  have hcomp : FlightRow.flight_id ∘ updateFlightContact fid cs now = FlightRow.flight_id := by
    funext f
    exact updateFlightContact_id fid cs now f
  rw [List.map_map, hcomp]

theorem map_updateFlightContact_active (l : List FlightRow) (fid : Nat)
    (cs : Option String) (now : Int) :
    (l.map (updateFlightContact fid cs now)).map FlightRow.is_active =
      l.map FlightRow.is_active := by
  have hcomp : FlightRow.is_active ∘ updateFlightContact fid cs now = FlightRow.is_active := by
    funext f
    exact updateFlightContact_active fid cs now f
  rw [List.map_map, hcomp]

/-! ### C3 — warm-cache resolution is stable and timeout-blind -/

/-- C3: while the local index holds an entry for an identity, resolving that
identity returns the cached flight id — twice in a row gives the same id —
with no dependence on the configured continuity timeout, no new flight row,
no change to any row's active flag or id, and only a cache `last_seen`
refresh (plus the row's contact/callsign update). -/
theorem warm_cache_resolve_stable (t t2 now now2 : Int) (s : Sys) (icao : String)
    (cs cs2 : Option String) (e : CacheEntry)
    (h : assocLookup s.active_flights icao = some e) :
    (get_or_create_flight t s icao cs now).1 = e.flight_id
  ∧ (get_or_create_flight t2 (get_or_create_flight t s icao cs now).2 icao cs2 now2).1
      = e.flight_id
  ∧ get_or_create_flight t s icao cs now = get_or_create_flight t2 s icao cs now
  ∧ ((get_or_create_flight t s icao cs now).2).flights.map FlightRow.flight_id
      = s.flights.map FlightRow.flight_id
  ∧ ((get_or_create_flight t s icao cs now).2).flights.map FlightRow.is_active
      = s.flights.map FlightRow.is_active
  ∧ ((get_or_create_flight t s icao cs now).2).next_flight_id = s.next_flight_id
  ∧ assocLookup ((get_or_create_flight t s icao cs now).2).active_flights icao
      = some ⟨e.flight_id, now⟩ := by
  have hres := get_or_create_flight_warm t now s icao cs e h
  have hlook : assocLookup ((get_or_create_flight t s icao cs now).2).active_flights icao
      = some ⟨e.flight_id, now⟩ := by
    rw [hres]
    exact assocLookup_insert_self _ _ _
  have hres2 := get_or_create_flight_warm t2 now2
    ((get_or_create_flight t s icao cs now).2) icao cs2 ⟨e.flight_id, now⟩ hlook
  refine ⟨by rw [hres], by rw [hres2], ?_, ?_, ?_, ?_, hlook⟩
  · rw [hres, get_or_create_flight_warm t2 now s icao cs e h]
  · rw [hres]
    exact map_updateFlightContact_id _ _ _ _
  · rw [hres]
    exact map_updateFlightContact_active _ _ _ _
  · rw [hres]

/-- A state whose local index is warm for `A1B2C3`. -/
def sWarm : Sys :=
  { sysInit with flights := [⟨5, "A1B2C3", none, true, 0⟩], next_flight_id := 6,
                 active_flights := [("A1B2C3", ⟨5, 0⟩)] }

theorem warm_cache_resolve_stable_witness :
    (get_or_create_flight 1 sWarm "A1B2C3" none 1000).1 = 5 ∧
    (get_or_create_flight 1 (get_or_create_flight 1 sWarm "A1B2C3" none 1000).2
        "A1B2C3" none 1001).1 = 5 := by
  have hw := warm_cache_resolve_stable 1 1 1000 1001 sWarm "A1B2C3" none none ⟨5, 0⟩ rfl
  exact ⟨hw.1, hw.2.1⟩

/-! ### C5 — cold resolution: resume newest or create -/

/-- C5: on a cache miss, resolve queries the store for an active flight of
the identity within the continuity timeout.  If any candidate exists, a
most-recently-contacted one is adopted into the cache, refreshed and its id
returned — more than one nominal active row is tolerated, not an error.
Otherwise a fresh flight is inserted with is-active = true and
callsign = given-or-null, cached, and its id returned. -/
theorem cold_resolve_behavior (t now : Int) (s : Sys) (icao : String)
    (cs : Option String)
    (h : assocLookup s.active_flights icao = none) :
    (∀ r, pickLatest (coldCandidates t s icao now) = some r →
       (r ∈ s.flights ∧ r.icao_address = icao ∧ r.is_active = true ∧
          r.last_contact > now - t)
       ∧ (∀ c ∈ coldCandidates t s icao now, c.last_contact ≤ r.last_contact)
       ∧ get_or_create_flight t s icao cs now =
           (r.flight_id,
            { s with active_flights := assocInsert s.active_flights icao ⟨r.flight_id, now⟩,
                     flights := s.flights.map (updateFlightContact r.flight_id cs now) }))
  ∧ (pickLatest (coldCandidates t s icao now) = none →
       get_or_create_flight t s icao cs now =
         (s.next_flight_id,
          { s with
              flights := s.flights ++
                [⟨s.next_flight_id, icao, (if pyTruthyStr cs then cs else none), true, now⟩],
              next_flight_id := s.next_flight_id + 1,
              active_flights := assocInsert s.active_flights icao ⟨s.next_flight_id, now⟩ })) := by
  constructor
  · intro r hp
    have hmem := pickLatest_mem _ r hp
    unfold coldCandidates at hmem
    obtain ⟨hmem2, hcond⟩ := List.mem_filter.mp hmem
    simp only [Bool.and_eq_true, decide_eq_true_eq] at hcond
    exact ⟨⟨hmem2, hcond.1.1, hcond.1.2, hcond.2⟩,
           pickLatest_max _ r hp,
           get_or_create_flight_cold_resume t now s icao cs r h hp⟩
  · intro hp
    exact get_or_create_flight_cold_create t now s icao cs h hp

/-- A state with one active but cold (uncached) flight for `A1B2C3`. -/
def sCold : Sys :=
  { sysInit with flights := [⟨7, "A1B2C3", none, true, 100⟩], next_flight_id := 8 }

theorem cold_resolve_behavior_witness :
    get_or_create_flight 60 sCold "A1B2C3" none 110 =
      (7, { sCold with active_flights := [("A1B2C3", ⟨7, 110⟩)],
                       flights := [⟨7, "A1B2C3", none, true, 110⟩] }) := by
  have hw := (cold_resolve_behavior 60 110 sCold "A1B2C3" none rfl).1
    ⟨7, "A1B2C3", none, true, 100⟩ rfl
  rw [hw.2.2]
  rfl

/-! ### Totality of the alert evaluator -/

theorem altitudeTriggered_total (value : String) (ao : Option Int) :
    ∃ b, altitudeTriggered value ao = Except.ok b := by
  cases ao with
  | none => exact ⟨false, rfl⟩
  | some alt =>
    have hshow : altitudeTriggered value (some alt) =
        (match altitudeRuleBody value alt with
         | Except.ok b => Except.ok b
         | Except.error _ => Except.ok false) := rfl
    cases hb : altitudeRuleBody value alt with
    | ok b => exact ⟨b, by rw [hshow, hb]⟩
    | error e => exact ⟨false, by rw [hshow, hb]⟩

theorem ruleTriggeredE_total (rule : AlertRule) (data : ReportData) :
    ∃ b, ruleTriggeredE rule data = Except.ok b := by
  unfold ruleTriggeredE
  by_cases h1 : rule.alert_type = "ICAO" ∧ data.icao_address = some (pyUpper rule.alert_value)
  · exact ⟨true, by rw [if_pos h1]⟩
  · rw [if_neg h1]
    by_cases h2 : rule.alert_type = "CALLSIGN" ∧ data.callsign = some (pyUpper rule.alert_value)
    · exact ⟨true, by rw [if_pos h2]⟩
    · rw [if_neg h2]
      by_cases h3 : rule.alert_type = "SQUAWK" ∧ data.squawk = some rule.alert_value
      · exact ⟨true, by rw [if_pos h3]⟩
      · rw [if_neg h3]
        by_cases h4 : rule.alert_type = "ALTITUDE" ∧ optAltTruthy data.altitude = true
        · rw [if_pos h4]
          exact altitudeTriggered_total _ _
        · exact ⟨false, by rw [if_neg h4]⟩

theorem checkAlertsStep_total (data : ReportData) (fid : Nat) (now : Int) (s : Sys)
    (rule : AlertRule) :
    ∃ s2, checkAlertsStep data fid now s rule = Except.ok s2
      ∧ s2.flights = s.flights ∧ s2.active_flights = s.active_flights
      ∧ s2.next_flight_id = s.next_flight_id ∧ s2.positions = s.positions
      ∧ s2.aircraft = s.aircraft ∧ s2.alert_rules = s.alert_rules := by
  obtain ⟨b, hb⟩ := ruleTriggeredE_total rule data
  unfold checkAlertsStep
  rw [hb, except_bind_ok]
  cases b
  · exact ⟨s, rfl, rfl, rfl, rfl, rfl, rfl, rfl⟩
  · exact ⟨{ s with
        alert_history := s.alert_history ++ [mkAlertEvent rule data fid],
        alerts := s.alerts.map (fun a => if a.1 = rule.alert_id then (a.1, some now) else a) },
      rfl, rfl, rfl, rfl, rfl, rfl, rfl⟩

theorem checkAlerts_fold_total (data : ReportData) (fid : Nat) (now : Int) :
    ∀ (rules : List AlertRule) (s : Sys),
      ∃ s2, rules.foldlM (checkAlertsStep data fid now) s = Except.ok s2
        ∧ s2.flights = s.flights ∧ s2.active_flights = s.active_flights
        ∧ s2.next_flight_id = s.next_flight_id ∧ s2.positions = s.positions
        ∧ s2.aircraft = s.aircraft := by
  intro rules
  induction rules with
  | nil => exact fun s => ⟨s, rfl, rfl, rfl, rfl, rfl, rfl⟩
  | cons r rest ih =>
    intro s
    obtain ⟨s1, hs1, hf1, ha1, hn1, hp1, hc1, _⟩ := checkAlertsStep_total data fid now s r
    obtain ⟨s2, hs2, hf2, ha2, hn2, hp2, hc2⟩ := ih s1
    refine ⟨s2, ?_, by rw [hf2, hf1], by rw [ha2, ha1], by rw [hn2, hn1],
            by rw [hp2, hp1], by rw [hc2, hc1]⟩
    rw [List.foldlM_cons, hs1, except_bind_ok, hs2]

/-- `check_alerts` never lets an exception escape, and touches only the
`alert_history` and `alerts` tables. -/
theorem check_alerts_total (s : Sys) (data : ReportData) (fid : Nat) (now : Int) :
    ∃ s2, check_alerts s data fid now = Except.ok s2
      ∧ s2.flights = s.flights ∧ s2.active_flights = s.active_flights
      ∧ s2.next_flight_id = s.next_flight_id ∧ s2.positions = s.positions
      ∧ s2.aircraft = s.aircraft := by
  unfold check_alerts
  by_cases hr : s.alert_rules = []
  · rw [if_pos hr]
    exact ⟨s, rfl, rfl, rfl, rfl, rfl, rfl⟩
  · rw [if_neg hr]
    exact checkAlerts_fold_total data fid now s.alert_rules s

/-! ### C4 — hot-path operation order (corrected) -/

/-- A report carrying only a transponder address. -/
def c4Data : ReportData := { reportBase with icao_address := some "ABC123" }

/-- C4 counterexample: on a concrete accepted report, `store_position` runs
`check_alerts` strictly before the position `INSERT` (trace indices 2 and
3), so the position insert does not happen before alert evaluation as the
claim states. -/
theorem alerts_before_position_counterexample :
    (store_position 60 sysInit c4Data 0).map (fun p => p.2) =
      Except.ok [HotEvent.ensureAircraft "ABC123", HotEvent.flightResolved 1,
                 HotEvent.alertsChecked 1, HotEvent.positionInserted 1] ∧
    [HotEvent.ensureAircraft "ABC123", HotEvent.flightResolved 1,
     HotEvent.alertsChecked 1, HotEvent.positionInserted 1].indexOf
        (HotEvent.alertsChecked 1) <
      [HotEvent.ensureAircraft "ABC123", HotEvent.flightResolved 1,
       HotEvent.alertsChecked 1, HotEvent.positionInserted 1].indexOf
        (HotEvent.positionInserted 1) := by
  exact ⟨rfl, by decide⟩

/-- C4 amended: for every accepted decoded line the hot path runs in source
order — resolve the flight, evaluate alerts, and only then insert the
PositionReport row: alert evaluation for a report happens before that
report's position insert. -/
theorem hot_path_order (t now : Int) (s : Sys) (data : ReportData) (icao : String)
    (h : data.icao_address = some icao) (h2 : ¬ icao = "") :
    ∃ s4 fid, store_position t s data now =
      Except.ok (s4, [HotEvent.ensureAircraft icao, HotEvent.flightResolved fid,
                      HotEvent.alertsChecked fid, HotEvent.positionInserted fid]) := by
  obtain ⟨s3, hs3, hf3, ha3, hn3, hp3, hc3⟩ := check_alerts_total
    ((get_or_create_flight t (ensure_aircraft_exists s icao now) icao data.callsign now).2)
    data
    ((get_or_create_flight t (ensure_aircraft_exists s icao now) icao data.callsign now).1)
    now
  have hstep : store_position t s data now =
      (check_alerts
          ((get_or_create_flight t (ensure_aircraft_exists s icao now) icao data.callsign now).2)
          data
          ((get_or_create_flight t (ensure_aircraft_exists s icao now) icao data.callsign now).1)
          now >>= fun s3 =>
        Except.ok
          ({ s3 with positions := s3.positions ++
              [mkPositionRow data
                ((get_or_create_flight t (ensure_aircraft_exists s icao now) icao
                    data.callsign now).1) icao] },
           [HotEvent.ensureAircraft icao,
            HotEvent.flightResolved
              ((get_or_create_flight t (ensure_aircraft_exists s icao now) icao
                  data.callsign now).1),
            HotEvent.alertsChecked
              ((get_or_create_flight t (ensure_aircraft_exists s icao now) icao
                  data.callsign now).1),
            HotEvent.positionInserted
              ((get_or_create_flight t (ensure_aircraft_exists s icao now) icao
                  data.callsign now).1)])) := by
    unfold store_position
    rw [h]
    change (if icao = "" then Except.ok (s, []) else _) = _
    rw [if_neg h2]
    rfl
  refine ⟨{ s3 with positions := s3.positions ++
      [mkPositionRow data
        ((get_or_create_flight t (ensure_aircraft_exists s icao now) icao
            data.callsign now).1) icao] },
    (get_or_create_flight t (ensure_aircraft_exists s icao now) icao data.callsign now).1, ?_⟩
  rw [hstep, hs3, except_bind_ok]

theorem hot_path_order_witness :
    ∃ s4 fid, store_position 60 sysInit c4Data 0 =
      Except.ok (s4, [HotEvent.ensureAircraft "ABC123", HotEvent.flightResolved fid,
                      HotEvent.alertsChecked fid, HotEvent.positionInserted fid]) :=
  hot_path_order 60 0 sysInit c4Data "ABC123" rfl (by decide)

/-! ### C9 — only the sweep ends flights -/

theorem resolve_preserves_active (t now : Int) (s : Sys) (icao : String)
    (cs : Option String) (f : FlightRow) (hf : f ∈ s.flights) :
    ∃ g ∈ ((get_or_create_flight t s icao cs now).2).flights,
      g.flight_id = f.flight_id ∧ g.is_active = f.is_active := by
  cases hl : assocLookup s.active_flights icao with
  | some e =>
    rw [get_or_create_flight_warm t now s icao cs e hl]
    exact ⟨updateFlightContact e.flight_id cs now f, List.mem_map_of_mem _ hf,
           updateFlightContact_id _ _ _ _, updateFlightContact_active _ _ _ _⟩
  | none =>
    cases hp : pickLatest (coldCandidates t s icao now) with
    | some r =>
      rw [get_or_create_flight_cold_resume t now s icao cs r hl hp]
      exact ⟨updateFlightContact r.flight_id cs now f, List.mem_map_of_mem _ hf,
             updateFlightContact_id _ _ _ _, updateFlightContact_active _ _ _ _⟩
    | none =>
      rw [get_or_create_flight_cold_create t now s icao cs hl hp]
      exact ⟨f, List.mem_append_left _ hf, rfl, rfl⟩

/-- C9: no ingestion-path operation ever flips a flight's active flag —
resolve keeps every row's `is_active` (and creates only active rows),
`check_alerts` leaves the `flights` table untouched, and `store_position`
as a whole preserves every row's `is_active`.  Only
`cleanup_stale_flights` / `end_stale_flights` performs the
active-to-ended transition. -/
theorem ingestion_never_ends_flights (t now : Int) (s : Sys) (data : ReportData)
    (icao : String) (cs : Option String) (fid : Nat) :
    (∀ f ∈ s.flights, ∃ g ∈ ((get_or_create_flight t s icao cs now).2).flights,
        g.flight_id = f.flight_id ∧ g.is_active = f.is_active)
  ∧ (∀ s2, check_alerts s data fid now = Except.ok s2 → s2.flights = s.flights)
  ∧ (∀ s2 tr, store_position t s data now = Except.ok (s2, tr) →
      ∀ f ∈ s.flights, ∃ g ∈ s2.flights,
        g.flight_id = f.flight_id ∧ g.is_active = f.is_active) := by
  refine ⟨fun f hf => resolve_preserves_active t now s icao cs f hf, ?_, ?_⟩
  · intro s2 h2
    obtain ⟨s2w, hw, hfw, _⟩ := check_alerts_total s data fid now
    rw [hw] at h2
    injection h2 with h2
    rw [h2] at hfw
    exact hfw
  · intro s2 tr hsp f hf
    cases hi : data.icao_address with
    | none =>
      have hnoop : store_position t s data now = Except.ok (s, []) := by
        unfold store_position
        rw [hi]
      rw [hnoop] at hsp
      injection hsp with hsp
      injection hsp with hsp htr
      rw [← hsp]
      exact ⟨f, hf, rfl, rfl⟩
    | some icao2 =>
      by_cases hz : icao2 = ""
      · have hnoop : store_position t s data now = Except.ok (s, []) := by
          unfold store_position
          rw [hi]
          change (if icao2 = "" then Except.ok (s, []) else _) = _
          rw [if_pos hz]
        rw [hnoop] at hsp
        injection hsp with hsp
        injection hsp with hsp htr
        rw [← hsp]
        exact ⟨f, hf, rfl, rfl⟩
      · obtain ⟨s3, hs3, hf3, ha3, hn3, hp3, hc3⟩ := check_alerts_total
          ((get_or_create_flight t (ensure_aircraft_exists s icao2 now) icao2
              data.callsign now).2)
          data
          ((get_or_create_flight t (ensure_aircraft_exists s icao2 now) icao2
              data.callsign now).1)
          now
        have hstep : store_position t s data now =
            (check_alerts
                ((get_or_create_flight t (ensure_aircraft_exists s icao2 now) icao2
                    data.callsign now).2)
                data
                ((get_or_create_flight t (ensure_aircraft_exists s icao2 now) icao2
                    data.callsign now).1)
                now >>= fun s3 =>
              Except.ok
                ({ s3 with positions := s3.positions ++
                    [mkPositionRow data
                      ((get_or_create_flight t (ensure_aircraft_exists s icao2 now) icao2
                          data.callsign now).1) icao2] },
                 [HotEvent.ensureAircraft icao2,
                  HotEvent.flightResolved
                    ((get_or_create_flight t (ensure_aircraft_exists s icao2 now) icao2
                        data.callsign now).1),
                  HotEvent.alertsChecked
                    ((get_or_create_flight t (ensure_aircraft_exists s icao2 now) icao2
                        data.callsign now).1),
                  HotEvent.positionInserted
                    ((get_or_create_flight t (ensure_aircraft_exists s icao2 now) icao2
                        data.callsign now).1)])) := by
          unfold store_position
          rw [hi]
          change (if icao2 = "" then Except.ok (s, []) else _) = _
          rw [if_neg hz]
          rfl
        rw [hstep, hs3, except_bind_ok] at hsp
        injection hsp with hsp
        injection hsp with hsp htr
        have hfe : (ensure_aircraft_exists s icao2 now).flights = s.flights := rfl
        have hmem : f ∈ (ensure_aircraft_exists s icao2 now).flights := by
          rw [hfe]
          exact hf
        obtain ⟨g, hg, hgid, hgact⟩ := resolve_preserves_active t now
          (ensure_aircraft_exists s icao2 now) icao2 data.callsign f hmem
        refine ⟨g, ?_, hgid, hgact⟩
        rw [← hsp]
        show g ∈ s3.flights
        rw [hf3]
        exact hg

theorem ingestion_never_ends_flights_witness :
    ∀ f ∈ sWarm.flights,
      ∃ g ∈ ((get_or_create_flight 60 sWarm "A1B2C3" none 1000).2).flights,
        g.flight_id = f.flight_id ∧ g.is_active = f.is_active :=
  (ingestion_never_ends_flights 60 1000 sWarm reportBase "A1B2C3" none 1).1

/-! ### C1 — the at-most-one-active-flight invariant -/

/-- Number of active flight rows owned by one transponder address. -/
def activeFlightCount (s : Sys) (icao : String) : Nat :=
  (s.flights.filter (fun f => f.is_active && decide (f.icao_address = icao))).length

/-- States reachable from a cold start by any interleaving of resolve
(`get_or_create_flight`) and sweep (`cleanup_stale_flights`) operations,
with arbitrary per-call inputs, clocks and timeout configuration. -/
inductive Reachable : Sys → Prop where
  | init : Reachable sysInit
  | resolve (s : Sys) (timeout : Int) (icao : String) (cs : Option String) (now : Int) :
      Reachable s → Reachable ((get_or_create_flight timeout s icao cs now).2)
  | sweep (s : Sys) (timeout now : Int) :
      Reachable s → Reachable (cleanup_stale_flights timeout s now)

/-- The inductive invariant: flight ids are fresh and pairwise distinct,
every active row is indexed by the cache under its owner with matching id
and contact instant, and every cache entry points back to such a row. -/
def SysInv (s : Sys) : Prop :=
  (∀ f ∈ s.flights, f.flight_id < s.next_flight_id)
  ∧ (s.flights.map FlightRow.flight_id).Nodup
  ∧ (∀ f ∈ s.flights, f.is_active = true →
       assocLookup s.active_flights f.icao_address = some ⟨f.flight_id, f.last_contact⟩)
  ∧ (∀ kv ∈ s.active_flights, ∃ f ∈ s.flights,
       f.flight_id = kv.2.flight_id ∧ f.icao_address = kv.1 ∧ f.is_active = true
       ∧ f.last_contact = kv.2.last_seen)

theorem sysInv_init : SysInv sysInit := by
  refine ⟨?_, ?_, ?_, ?_⟩
  · intro f hf
    exact absurd hf (List.not_mem_nil f)
  · exact List.nodup_nil
  · intro f hf
    exact absurd hf (List.not_mem_nil f)
  · intro kv hkv
    exact absurd hkv (List.not_mem_nil kv)

theorem endFlightRow_id (t now : Int) (f : FlightRow) :
    (endFlightRow t now f).flight_id = f.flight_id := by
  unfold endFlightRow
  split <;> rfl

theorem endFlightRow_icao (t now : Int) (f : FlightRow) :
    (endFlightRow t now f).icao_address = f.icao_address := by
  unfold endFlightRow
  split <;> rfl

theorem endFlightRow_lc (t now : Int) (f : FlightRow) :
    (endFlightRow t now f).last_contact = f.last_contact := by
  unfold endFlightRow
  split <;> rfl

theorem endFlightRow_fresh (t now : Int) (f : FlightRow)
    (h : decide (now - f.last_contact > t) = false) : endFlightRow t now f = f := by
  unfold endFlightRow
  rw [if_neg]
  intro hc
  rw [Bool.and_eq_true, h] at hc
  exact Bool.false_ne_true hc.2

theorem endFlightRow_inactive (t now : Int) (f : FlightRow)
    (hact : ¬ f.is_active = true) : endFlightRow t now f = f := by
  unfold endFlightRow
  rw [if_neg]
  intro hc
  rw [Bool.and_eq_true] at hc
  exact hact hc.1

theorem endFlightRow_stale (t now : Int) (f : FlightRow)
    (hact : f.is_active = true) (hst : decide (now - f.last_contact > t) = true) :
    endFlightRow t now f = { f with is_active := false } := by
  unfold endFlightRow
  rw [if_pos]
  rw [Bool.and_eq_true]
  exact ⟨hact, hst⟩

theorem map_endFlightRow_id (t now : Int) (l : List FlightRow) :
    (l.map (endFlightRow t now)).map FlightRow.flight_id = l.map FlightRow.flight_id := by
  have hcomp : FlightRow.flight_id ∘ endFlightRow t now = FlightRow.flight_id := by
    funext f
    exact endFlightRow_id t now f
  rw [List.map_map, hcomp]

theorem sysInv_sweep (t now : Int) (s : Sys) (h : SysInv s) :
    SysInv (cleanup_stale_flights t s now) := by
  obtain ⟨hlt, hnd, hcache, hrows⟩ := h
  unfold cleanup_stale_flights end_stale_flights
  refine ⟨?_, ?_, ?_, ?_⟩
  · intro f' hf'
    obtain ⟨f, hf, rfl⟩ := List.mem_map.mp hf'
    rw [endFlightRow_id]
    exact hlt f hf
  · rw [map_endFlightRow_id]
    exact hnd
  · intro f' hf' hact'
    obtain ⟨f, hf, rfl⟩ := List.mem_map.mp hf'
    by_cases hact : f.is_active = true
    · by_cases hst : decide (now - f.last_contact > t) = true
      · rw [endFlightRow_stale t now f hact hst] at hact'
        exact absurd hact' (by simp)
      · have hfalse : decide (now - f.last_contact > t) = false := by
          simpa using hst
        have heq := endFlightRow_fresh t now f hfalse
        rw [heq] at hact' ⊢
        have hcl := hcache f hf hact'
        apply assocLookup_filter_kept _ _ _ _ hcl
        show (!(decide (now - f.last_contact > t))) = true
        rw [hfalse]
        rfl
    · rw [endFlightRow_inactive t now f hact] at hact'
      exact absurd hact' hact
  · intro kv hkv
    obtain ⟨hmem, hp⟩ := List.mem_filter.mp hkv
    obtain ⟨g, hg, hgid, hgicao, hgact, hglc⟩ := hrows kv hmem
    have hfresh0 : decide (now - kv.2.last_seen > t) = false := by
      simpa using hp
    have hfresh : decide (now - g.last_contact > t) = false := by
      rw [hglc]
      exact hfresh0
    have heq := endFlightRow_fresh t now g hfresh
    refine ⟨endFlightRow t now g, List.mem_map_of_mem _ hg, ?_, ?_, ?_, ?_⟩
    · rw [heq]
      exact hgid
    · rw [heq]
      exact hgicao
    · rw [heq]
      exact hgact
    · rw [heq]
      exact hglc

theorem sysInv_resolve (t now : Int) (s : Sys) (icao : String) (cs : Option String)
    (h : SysInv s) : SysInv ((get_or_create_flight t s icao cs now).2) := by
  obtain ⟨hlt, hnd, hcache, hrows⟩ := h
  cases hl : assocLookup s.active_flights icao with
  | some e =>
    obtain ⟨r, hrmem, hrid0, hricao0, hract, hrlc0⟩ :=
      hrows (icao, e) (assocLookup_mem _ _ _ hl)
    have hrid : r.flight_id = e.flight_id := hrid0
    have hricao : r.icao_address = icao := hricao0
    rw [get_or_create_flight_warm t now s icao cs e hl]
    refine ⟨?_, ?_, ?_, ?_⟩
    · intro f hf
      obtain ⟨f0, hf0, rfl⟩ := List.mem_map.mp hf
      show (updateFlightContact e.flight_id cs now f0).flight_id < s.next_flight_id
      rw [updateFlightContact_id]
      exact hlt f0 hf0
    · show ((s.flights.map (updateFlightContact e.flight_id cs now)).map
          FlightRow.flight_id).Nodup
      rw [map_updateFlightContact_id]
      exact hnd
    · intro f hf hact'
      obtain ⟨f0, hf0, rfl⟩ := List.mem_map.mp hf
      by_cases hid : f0.flight_id = e.flight_id
      · have hf0r : f0 = r :=
          flightRow_eq_of_nodup s.flights hnd f0 r hf0 hrmem (by rw [hid, hrid])
        have hu := updateFlightContact_eq e.flight_id cs now f0 hid
        rw [hu]
        show assocLookup (assocInsert s.active_flights icao ⟨e.flight_id, now⟩)
            f0.icao_address = some ⟨f0.flight_id, now⟩
        rw [hf0r, hricao, hrid]
        exact assocLookup_insert_self _ _ _
      · have hu := updateFlightContact_ne e.flight_id cs now f0 hid
        rw [hu] at hact' ⊢
        have hcl := hcache f0 hf0 hact'
        have hne : f0.icao_address ≠ icao := by
          intro hcontra
          rw [hcontra, hl] at hcl
          injection hcl with hcl
          exact hid (congrArg CacheEntry.flight_id hcl.symm)
        exact (assocLookup_insert_ne s.active_flights icao f0.icao_address
          ⟨e.flight_id, now⟩ hne).trans hcl
    · intro kv hkv
      have hkv2 : kv ∈ ((icao, (⟨e.flight_id, now⟩ : CacheEntry)) ::
          assocErase s.active_flights icao) := hkv
      rcases List.mem_cons.mp hkv2 with hkvh | hkvt
      · have hu := updateFlightContact_eq e.flight_id cs now r hrid
        refine ⟨updateFlightContact e.flight_id cs now r,
                List.mem_map_of_mem _ hrmem, ?_, ?_, ?_, ?_⟩
        · rw [hkvh, hu]
          exact hrid
        · rw [hkvh, hu]
          exact hricao
        · rw [hu]
          exact hract
        · rw [hkvh, hu]
      · obtain ⟨hmem, hne⟩ := assocErase_mem _ _ _ hkvt
        obtain ⟨g, hg, hgid, hgicao, hgact, hglc⟩ := hrows kv hmem
        have hgne : g.flight_id ≠ e.flight_id := by
          intro hcontra
          have hgr : g = r :=
            flightRow_eq_of_nodup s.flights hnd g r hg hrmem (by rw [hcontra, hrid])
          apply hne
          rw [← hgicao, hgr, hricao]
        have hu := updateFlightContact_ne e.flight_id cs now g hgne
        refine ⟨updateFlightContact e.flight_id cs now g,
                List.mem_map_of_mem _ hg, ?_, ?_, ?_, ?_⟩
        · rw [hu]
          exact hgid
        · rw [hu]
          exact hgicao
        · rw [hu]
          exact hgact
        · rw [hu]
          exact hglc
  | none =>
    cases hp : pickLatest (coldCandidates t s icao now) with
    | some r =>
      exfalso
      have hmem := pickLatest_mem _ r hp
      unfold coldCandidates at hmem
      obtain ⟨hmem2, hcond⟩ := List.mem_filter.mp hmem
      simp only [Bool.and_eq_true, decide_eq_true_eq] at hcond
      have hcl := hcache r hmem2 hcond.1.2
      rw [hcond.1.1, hl] at hcl
      exact Option.noConfusion hcl
    | none =>
      rw [get_or_create_flight_cold_create t now s icao cs hl hp]
      refine ⟨?_, ?_, ?_, ?_⟩
      · intro f hf
        have hf2 : f ∈ s.flights ++
            [⟨s.next_flight_id, icao, (if pyTruthyStr cs then cs else none), true, now⟩] := hf
        rcases List.mem_append.mp hf2 with hfo | hfo
        · show f.flight_id < s.next_flight_id + 1
          exact Nat.lt_succ_of_lt (hlt f hfo)
        · rw [List.mem_singleton] at hfo
          subst hfo
          show s.next_flight_id < s.next_flight_id + 1
          exact Nat.lt_succ_self _
      · show (((s.flights ++
            [(⟨s.next_flight_id, icao, (if pyTruthyStr cs then cs else none), true,
              now⟩ : FlightRow)]).map FlightRow.flight_id)).Nodup
        rw [List.map_append]
        refine List.Nodup.append hnd (List.nodup_singleton _) ?_
        intro a ha hb
        simp only [List.map_cons, List.map_nil, List.mem_singleton] at hb
        obtain ⟨g, hg1, hg2⟩ := List.mem_map.mp ha
        rw [hb] at hg2
        have hglt := hlt g hg1
        rw [hg2] at hglt
        exact Nat.lt_irrefl _ hglt
      · intro f hf hact
        have hf2 : f ∈ s.flights ++
            [⟨s.next_flight_id, icao, (if pyTruthyStr cs then cs else none), true, now⟩] := hf
        rcases List.mem_append.mp hf2 with hfo | hfo
        · have hcl := hcache f hfo hact
          have hne : f.icao_address ≠ icao := by
            intro hcontra
            rw [hcontra, hl] at hcl
            exact Option.noConfusion hcl
          exact (assocLookup_insert_ne s.active_flights icao f.icao_address
            ⟨s.next_flight_id, now⟩ hne).trans hcl
        · rw [List.mem_singleton] at hfo
          subst hfo
          exact assocLookup_insert_self s.active_flights icao ⟨s.next_flight_id, now⟩
      · intro kv hkv
        have hkv2 : kv ∈ ((icao, (⟨s.next_flight_id, now⟩ : CacheEntry)) ::
            assocErase s.active_flights icao) := hkv
        rcases List.mem_cons.mp hkv2 with hkvh | hkvt
        · refine ⟨(⟨s.next_flight_id, icao, (if pyTruthyStr cs then cs else none), true,
                now⟩ : FlightRow),
              List.mem_append_right _ (List.mem_singleton_self _), ?_, ?_, ?_, ?_⟩
          · rw [hkvh]
          · rw [hkvh]
          · rfl
          · rw [hkvh]
        · obtain ⟨hmem, hne2⟩ := assocErase_mem _ _ _ hkvt
          obtain ⟨g, hg, hgid, hgicao, hgact, hglc⟩ := hrows kv hmem
          exact ⟨g, List.mem_append_left _ hg, hgid, hgicao, hgact, hglc⟩

theorem reachable_sysInv (s : Sys) (h : Reachable s) : SysInv s := by
  induction h with
  | init => exact sysInv_init
  | resolve s t icao cs now _ ih => exact sysInv_resolve t now s icao cs ih
  | sweep s t now _ ih => exact sysInv_sweep t now s ih

/-- C1: in every state reachable by any sequence of resolve
(`get_or_create_flight`) and sweep (`cleanup_stale_flights`) operations,
the store holds at most one flight row with is-active = true per
transponder address. -/
theorem at_most_one_active_flight (s : Sys) (h : Reachable s) (icao : String) :
    activeFlightCount s icao ≤ 1 := by
  obtain ⟨hlt, hnd, hcache, hrows⟩ := reachable_sysInv s h
  unfold activeFlightCount
  have huniq : ∀ f ∈ s.flights, ∀ g ∈ s.flights,
      f.is_active = true → g.is_active = true →
      f.icao_address = icao → g.icao_address = icao → f = g := by
    intro f hf g hg hfa hga hfi hgi
    have h1 := hcache f hf hfa
    have h2 := hcache g hg hga
    rw [hfi] at h1
    rw [hgi] at h2
    rw [h1] at h2
    injection h2 with h2
    exact flightRow_eq_of_nodup s.flights hnd f g hf hg
      (congrArg CacheEntry.flight_id h2)
  cases hfl : s.flights.filter (fun f => f.is_active && decide (f.icao_address = icao)) with
  | nil => rw [List.length_nil]; exact Nat.zero_le 1
  | cons a tl =>
    cases tl with
    | nil => rw [List.length_singleton]
    | cons b tl2 =>
      exfalso
      have hsub : (s.flights.filter
          (fun f => f.is_active && decide (f.icao_address = icao))).Sublist s.flights :=
        List.filter_sublist _
      have hnd2 : ((a :: b :: tl2).map FlightRow.flight_id).Nodup := by
        rw [← hfl]
        exact List.Nodup.sublist (List.Sublist.map FlightRow.flight_id hsub) hnd
      have ha : a ∈ s.flights ∧ (a.is_active && decide (a.icao_address = icao)) = true := by
        have : a ∈ s.flights.filter
            (fun f => f.is_active && decide (f.icao_address = icao)) := by
          rw [hfl]
          exact List.mem_cons_self _ _
        exact List.mem_filter.mp this
      have hb : b ∈ s.flights ∧ (b.is_active && decide (b.icao_address = icao)) = true := by
        have : b ∈ s.flights.filter
            (fun f => f.is_active && decide (f.icao_address = icao)) := by
          rw [hfl]
          exact List.mem_cons_of_mem _ (List.mem_cons_self _ _)
        exact List.mem_filter.mp this
      rw [Bool.and_eq_true, decide_eq_true_eq] at ha hb
      have hab : a = b :=
        huniq a ha.1 b hb.1 ha.2.1 hb.2.1 ha.2.2 hb.2.2
      simp only [List.map_cons, List.nodup_cons, List.mem_cons] at hnd2
      exact hnd2.1 (Or.inl (congrArg FlightRow.flight_id hab))

theorem at_most_one_active_flight_witness :
    activeFlightCount ((get_or_create_flight 60 sysInit "A1B2C3" (some "UAL123") 0).2)
      "A1B2C3" ≤ 1 :=
  at_most_one_active_flight _
    (Reachable.resolve sysInit 60 "A1B2C3" (some "UAL123") 0 Reachable.init) "A1B2C3"

end ADSB
